import Mathlib

/-!
A verification development for the crowd-cast synchronization engine
(`src/sync/engine.rs`, `src/sync/mod.rs`, `src/capture/recovery.rs`,
`src/capture/context.rs`, `src/data/format.rs`, `src/data/events.rs`).

The Rust code is shallowly embedded: every engine method that mutates
`&mut self` becomes a pure Lean function from an explicit state (plus an
environment record carrying the results of external calls such as file
reads, the capture runtime, and channel sends) to the new state together
with its observable outputs (status broadcasts, upload-channel messages,
files written and deleted).  Machine integers (`u64`, `u32`) are embedded
as `Nat`; Rust `saturating_sub` on unsigned integers is exactly `Nat`
subtraction.  Durations are embedded in seconds; the floating-point jitter
multiplier is embedded over `ℚ` (the code computes `0.8 + (hash % 401) /
1000.0`, which is exact at this granularity).
-/

namespace CrowdCast

/-- From `src/data/events.rs`: `InputEvent { timestamp_us: u64, event: EventType }`.
The payload (`EventType`, carrying key codes, `f64` mouse coordinates, ...)
is never inspected by the engine, so it is kept as a type parameter `K`. -/
structure InputEvent (K : Type) where
  timestamp_us : Nat
  event : K
deriving DecidableEq

/-- From `src/capture/context.rs` lines 33-40: `RecordingSession`.
`PathBuf` is embedded as `String`. -/
structure RecordingSession where
  session_id : String
  output_path : String
  start_time_ns : Nat
deriving DecidableEq

/-- From `src/sync/mod.rs` lines 26-47: `EngineStatus`. -/
inductive EngineStatus where
  | idle
  | capturing (event_count : Nat)
  | paused
  | recordingBlocked
  | waitingForOBS
  | uploading (chunk_id : String)
  | error (msg : String)
deriving DecidableEq

/-- From `src/sync/engine.rs` lines 51-57 / `src/data/format.rs`:
a completed chunk ready for upload. -/
structure CompletedChunk (K : Type) where
  chunk_id : String
  session_id : String
  video_path : Option String
  events : List (InputEvent K)
  start_time_us : Nat
  end_time_us : Nat
deriving DecidableEq

/-- From `src/sync/engine.rs` lines 36-43: `CompletedSegment`. -/
structure CompletedSegment (K : Type) where
  chunk : CompletedChunk K
  input_path : String
deriving DecidableEq

/-- From `src/sync/engine.rs` lines 45-49: `UploadMessage`. -/
inductive UploadMessage (K : Type) where
  | startSession (session_id : String)
  | segment (seg : CompletedSegment K)
deriving DecidableEq

/-- The outcome of `tokio::fs::read` followed by `rmp_serde::from_slice`
on one on-disk spill file (`collect_segment_events`, lines 649-670):
either a deserialized batch, a read error, or a deserialization error. -/
inductive ReadResult (K : Type) where
  | ok (events : List (InputEvent K))
  | readErr
  | parseErr
deriving DecidableEq

/-- One entry of the output directory, as seen by
`tokio::fs::read_dir` in `collect_segment_events`. -/
structure DirEntry (K : Type) where
  name : String
  content : ReadResult K
deriving DecidableEq

/-- From `src/capture/recovery.rs` lines 11-29: `DisplayChangeEvent`. -/
inductive DisplayChangeEvent where
  | originalReturned (display_id : Nat) (uuid : String) (display_name : String)
  | switchedToNew (from_id : Nat) (from_name : String) (to_id : Nat)
      (to_name : String) (to_uuid : String)
  | allDisconnected
deriving DecidableEq

/-- From `src/capture/recovery.rs` lines 33-42: the `DisplayMonitor` state. -/
structure DisplayMonitorState where
  last_display_ids : List Nat
  displays_were_disconnected : Bool
  original_display_id : Option Nat
  original_display_uuid : Option String
deriving DecidableEq

/-- From `src/sync/engine.rs` lines 91-132: the mutable fields of
`SyncEngine` that the embedded methods read or write.  Channel handles,
the uploader and the configuration are carried by the per-call
environment records instead. -/
structure EngineState (K : Type) where
  capture_enabled : Bool
  last_frontmost_app : Option String
  current_session : Option RecordingSession
  recording_start_ns : Option Nat
  output_dir : String
  display_monitor : DisplayMonitorState
  main_session_id : Option String
  segment_index : Nat
  event_buffer : List (InputEvent K)
deriving DecidableEq

/-- Observable side effects of one engine method call: messages sent on
the upload channel, statuses broadcast on `status_tx`, final input files
written, and spill files deleted (in order of occurrence). -/
structure EngineOutputs (K : Type) where
  uploads : List (UploadMessage K)
  statuses : List EngineStatus
  files_written : List (String × List (InputEvent K))
  files_deleted : List String
deriving DecidableEq

/-- No observable side effects. -/
def noOutputs (K : Type) : EngineOutputs K :=
  { uploads := [], statuses := [], files_written := [], files_deleted := [] }

/-- Zero-padded decimal rendering of `{:04}` used by `current_segment_id`. -/
def pad4 (n : Nat) : String :=
  let s := toString n
  if s.length < 4 then String.mk (List.replicate (4 - s.length) (Char.ofNat 48)) ++ s else s

/-- From `src/sync/engine.rs` lines 617-622: `current_segment_id`. -/
def current_segment_id (K : Type) (s : EngineState K) : String :=
  match s.main_session_id with
  | some id => id ++ "_seg" ++ pad4 s.segment_index
  | none => "unknown_seg" ++ pad4 s.segment_index

/-- Lexicographic comparison of character sequences, by Unicode scalar
value: the order `partial_files.sort()` applies to the spill file paths
(all ASCII, so byte order and scalar-value order agree). -/
def chars_le : List Char → List Char → Bool
  | [], _ => true
  | _ :: _, [] => false
  | a :: as, b :: bs =>
    if a.toNat < b.toNat then true
    else if b.toNat < a.toNat then false
    else chars_le as bs

instance (K : Type) : IsTotal (InputEvent K)
    (fun a b => a.timestamp_us ≤ b.timestamp_us) :=
  ⟨fun a b => Nat.le_total a.timestamp_us b.timestamp_us⟩

instance (K : Type) : IsTrans (InputEvent K)
    (fun a b => a.timestamp_us ≤ b.timestamp_us) :=
  ⟨fun _ _ _ hab hbc => le_trans hab hbc⟩

/-- From `src/sync/engine.rs` lines 631-645: the enumeration and
name-sorting of the spill files for a segment inside
`collect_segment_events` (filter the output directory for
`input_{segment_id}_partial_*.msgpack`, then `partial_files.sort()`).
Rust's slice sort is stable, and a stable sort of a list under a total
preorder is unique, so the insertion sort used here is extensionally the
same function. -/
def collect_spill_files (K : Type) (dir : List (DirEntry K))
    (segment_id : String) : List (DirEntry K) :=
  let pre := "input_" ++ segment_id ++ "_partial_"
  List.insertionSort
    (fun a b => chars_le a.name.data b.name.data = true)
    (dir.filter
      (fun e => (pre.data).isPrefixOf e.name.data &&
        ((".msgpack").data).isSuffixOf e.name.data))

/-- From `src/sync/engine.rs` lines 648-675: the combined event list inside
`collect_segment_events` before the final sort — batches read from the
spill files in filename order (a file whose read or deserialization fails
is skipped with a warning, lines 661-668), followed by the drained event
buffer. -/
def collect_combined (K : Type) (dir : List (DirEntry K))
    (buffer : List (InputEvent K)) (segment_id : String) :
    List (InputEvent K) :=
  ((collect_spill_files K dir segment_id).foldl
    (fun acc f => match f.content with
      | .ok es => acc ++ es
      | .readErr => acc
      | .parseErr => acc) []) ++ buffer

/-- From `src/sync/engine.rs` lines 628-688: `collect_segment_events`.
The directory listing is the `dir` argument; the event buffer contents are
the `buffer` argument (the source drains `self.event_buffer`).  Returns
the consolidated event list (`sort_by_key(|e| e.timestamp_us)`, a stable
sort, line 685) together with the names of the spill files deleted by the
cleanup loop (lines 678-682); that loop deletes every matched spill file,
including ones whose read or deserialization failed, and the function
always returns `Ok`. -/
def collect_segment_events (K : Type) (dir : List (DirEntry K))
    (buffer : List (InputEvent K)) (segment_id : String) :
    List (InputEvent K) × List String :=
  (List.insertionSort (fun a b => a.timestamp_us ≤ b.timestamp_us)
      (collect_combined K dir buffer segment_id),
    (collect_spill_files K dir segment_id).map (fun f => f.name))

/-- C1: every event list returned by `collect_segment_events` — for any
directory contents (spill files included) and any event buffer contents —
is sorted in nondecreasing `timestamp_us` order: for all `i < j`,
`events[i].timestamp_us ≤ events[j].timestamp_us`. -/
theorem collect_segment_events_sorted (K : Type) (dir : List (DirEntry K))
    (buffer : List (InputEvent K)) (segment_id : String)
    (i j : Fin (collect_segment_events K dir buffer segment_id).1.length)
    (hij : i < j) :
    ((collect_segment_events K dir buffer segment_id).1.get i).timestamp_us ≤
      ((collect_segment_events K dir buffer segment_id).1.get j).timestamp_us := by
  have hs : List.Sorted
      (fun a b : InputEvent K => a.timestamp_us ≤ b.timestamp_us)
      (collect_segment_events K dir buffer segment_id).1 :=
    List.sorted_insertionSort
      (fun a b : InputEvent K => a.timestamp_us ≤ b.timestamp_us)
      (collect_combined K dir buffer segment_id)
  exact hs.rel_get_of_lt hij

/-- Concrete instantiation of `collect_segment_events_sorted`: a segment
with one spill file holding events at 5 µs and 3 µs and a buffer event at
4 µs; positions 0 and 1 of the consolidated list are in order. -/
theorem collect_segment_events_sorted_witness :
    ((collect_segment_events Nat
        [⟨("input_s_partial_1.msgpack"), .ok [⟨5, 0⟩, ⟨3, 0⟩]⟩]
        [⟨4, 0⟩] ("s")).1.get ⟨0, by decide⟩).timestamp_us ≤
      ((collect_segment_events Nat
        [⟨("input_s_partial_1.msgpack"), .ok [⟨5, 0⟩, ⟨3, 0⟩]⟩]
        [⟨4, 0⟩] ("s")).1.get ⟨1, by decide⟩).timestamp_us :=
  collect_segment_events_sorted Nat
    [⟨("input_s_partial_1.msgpack"), .ok [⟨5, 0⟩, ⟨3, 0⟩]⟩]
    [⟨4, 0⟩] ("s") ⟨0, by decide⟩ ⟨1, by decide⟩ (by decide)

/-- From `src/sync/engine.rs` lines 961-990: `handle_input_event`.
`clock` is the result of `self.capture_ctx.get_video_frame_time()`
(`src/capture/context.rs` lines 772-781, a `Result<u64>`); the source
applies `.unwrap_or(0)` to it.  `saturating_sub` on `u64` is `Nat`
subtraction.  The second component models `flush_event_buffer`
(lines 996-1024): when the buffer reaches 10000 events after the push it
is drained and the batch is written to a spill file (the write result is
only logged); we return the drained batch. -/
def handle_input_event (K : Type) (clock : Except String Nat)
    (s : EngineState K) (event : InputEvent K) :
    EngineState K × Option (List (InputEvent K)) :=
  if s.capture_enabled = false then (s, none)
  else
    let adjusted_event :=
      match s.recording_start_ns with
      | some start_ns =>
        let current_ns := match clock with | .ok v => v | .error _ => 0
        let elapsed_us := (current_ns - start_ns) / 1000
        { event with timestamp_us := elapsed_us }
      | none => event
    let pushed := s.event_buffer ++ [adjusted_event]
    if 10000 ≤ pushed.length then
      ({ s with event_buffer := [] }, some pushed)
    else ({ s with event_buffer := pushed }, none)

/-- C2: when the gate is open and a recording start timestamp is set, the
event is buffered with its timestamp rewritten to
`(current_ns saturating-minus start_ns) / 1000`; that value is `≥ 0`, and
when the clock reading predates the segment start it is exactly 0. -/
theorem handle_input_event_timestamp (K : Type) (s : EngineState K)
    (e : InputEvent K) (current_ns start_ns : Nat)
    (hcap : s.capture_enabled = true)
    (hstart : s.recording_start_ns = some start_ns) :
    (((handle_input_event K (.ok current_ns) s e).1.event_buffer =
        s.event_buffer ++
          [{ e with timestamp_us := (current_ns - start_ns) / 1000 }] ∧
      (handle_input_event K (.ok current_ns) s e).2 = none) ∨
      ((handle_input_event K (.ok current_ns) s e).2 =
        some (s.event_buffer ++
          [{ e with timestamp_us := (current_ns - start_ns) / 1000 }]) ∧
      (handle_input_event K (.ok current_ns) s e).1.event_buffer = [])) ∧
      (0 ≤ (current_ns - start_ns) / 1000 ∧
        (current_ns ≤ start_ns → (current_ns - start_ns) / 1000 = 0)) := by
  refine ⟨?_, Nat.zero_le _, fun h => by simp [Nat.sub_eq_zero_of_le h]⟩
  simp only [handle_input_event, hcap, hstart]
  by_cases hlen : 9999 ≤ s.event_buffer.length
  · right
    simp [hlen]
  · left
    simp [hlen]

/-- A demonstration display-monitor state used by concrete instantiations. -/
def demoMonitor : DisplayMonitorState :=
  { last_display_ids := [1], displays_were_disconnected := false,
    original_display_id := none, original_display_uuid := none }

/-- A demonstration recording session used by concrete instantiations. -/
def demoSession : RecordingSession :=
  { session_id := "sess0", output_path := "out/recording_sess0.mp4",
    start_time_ns := 5000 }

/-- A demonstration engine state: gate open, recording started at 5000 ns. -/
def demoState : EngineState Nat :=
  { capture_enabled := true, last_frontmost_app := none,
    current_session := some demoSession, recording_start_ns := some 5000,
    output_dir := "out", display_monitor := demoMonitor,
    main_session_id := some ("sess"), segment_index := 0, event_buffer := [] }

/-- Concrete instantiation of `handle_input_event_timestamp`: clock reads
4000 ns, segment started at 5000 ns, so the event is buffered clamped. -/
theorem handle_input_event_timestamp_witness :
    (((handle_input_event Nat (.ok 4000) demoState ⟨999, 7⟩).1.event_buffer =
        demoState.event_buffer ++
          [{ (⟨999, 7⟩ : InputEvent Nat) with timestamp_us := (4000 - 5000) / 1000 }] ∧
      (handle_input_event Nat (.ok 4000) demoState ⟨999, 7⟩).2 = none) ∨
      ((handle_input_event Nat (.ok 4000) demoState ⟨999, 7⟩).2 =
        some (demoState.event_buffer ++
          [{ (⟨999, 7⟩ : InputEvent Nat) with timestamp_us := (4000 - 5000) / 1000 }]) ∧
      (handle_input_event Nat (.ok 4000) demoState ⟨999, 7⟩).1.event_buffer = [])) ∧
      (0 ≤ (4000 - 5000) / 1000 ∧
        ((4000 : Nat) ≤ 5000 → (4000 - 5000) / 1000 = 0)) :=
  handle_input_event_timestamp Nat demoState ⟨999, 7⟩ 4000 5000 rfl rfl

/-- C10: when the gate is open and a recording start timestamp is set but
the capture-clock query fails, the failed read is treated as 0, so the
event is still buffered (not dropped, no error) with timestamp 0. -/
theorem handle_input_event_clock_error (K : Type) (s : EngineState K)
    (e : InputEvent K) (msg : String) (start_ns : Nat)
    (hcap : s.capture_enabled = true)
    (hstart : s.recording_start_ns = some start_ns) :
    ((handle_input_event K (.error msg) s e).1.event_buffer =
        s.event_buffer ++ [{ e with timestamp_us := 0 }] ∧
      (handle_input_event K (.error msg) s e).2 = none) ∨
      ((handle_input_event K (.error msg) s e).2 =
        some (s.event_buffer ++ [{ e with timestamp_us := 0 }]) ∧
      (handle_input_event K (.error msg) s e).1.event_buffer = []) := by
  have hzero : (0 - start_ns) / 1000 = 0 := by
    simp [Nat.zero_sub]
  simp only [handle_input_event, hcap, hstart]
  by_cases hlen : 9999 ≤ s.event_buffer.length
  · right
    simp [hzero, hlen]
  · left
    simp [hzero, hlen]

/-- Concrete instantiation of `handle_input_event_clock_error`. -/
theorem handle_input_event_clock_error_witness :
    ((handle_input_event Nat (.error ("no clock")) demoState ⟨999, 7⟩).1.event_buffer =
        demoState.event_buffer ++ [{ (⟨999, 7⟩ : InputEvent Nat) with timestamp_us := 0 }] ∧
      (handle_input_event Nat (.error ("no clock")) demoState ⟨999, 7⟩).2 = none) ∨
      ((handle_input_event Nat (.error ("no clock")) demoState ⟨999, 7⟩).2 =
        some (demoState.event_buffer ++ [{ (⟨999, 7⟩ : InputEvent Nat) with timestamp_us := 0 }]) ∧
      (handle_input_event Nat (.error ("no clock")) demoState ⟨999, 7⟩).1.event_buffer = []) :=
  handle_input_event_clock_error Nat demoState ⟨999, 7⟩ "no clock" 5000 rfl rfl

/-- Environment for one `rotate_segment` call: the output-directory
listing plus the outcomes of the fallible external operations, in source
order — `rmp_serde::to_vec(&events)` (line 542), `tokio::fs::write`
(line 543), `capture_ctx.stop_recording()` (line 548),
`uploader.is_configured()` (line 561), `upload_tx.send` (line 567), and
`capture_ctx.start_recording(id)` (line 584) as a function of the
segment id it is called with. -/
structure RotateEnv (K : Type) where
  dir : List (DirEntry K)
  serialize_ok : Bool
  write_ok : Bool
  stop_ok : Bool
  uploader_configured : Bool
  send_ok : Bool
  start_result : String → Except String RecordingSession

/-- From `src/sync/engine.rs` lines 513-614: `rotate_segment`.  Returns
the post-call state, the observable outputs, and the `Result`.  Early
`?`-returns keep the mutations already applied, exactly as `&mut self`
does in the source. -/
def rotate_segment (K : Type) (env : RotateEnv K) (s : EngineState K) :
    EngineState K × EngineOutputs K × Except String Unit :=
  if s.current_session.isNone then (s, noOutputs K, .ok ())
  else
    match s.main_session_id with
    | none => (s, noOutputs K, .error ("No main session ID set"))
    | some main_session_id =>
      let was_capturing := s.capture_enabled
      let s1 := { s with capture_enabled := false }
      let video_path := s1.current_session.map (fun ses => ses.output_path)
      let segment_id := current_segment_id K s1
      let (events, deleted) := collect_segment_events K env.dir s1.event_buffer segment_id
      let s2 := { s1 with event_buffer := [] }
      let start_time_us := (events.head?.map (fun e => e.timestamp_us)).getD 0
      let end_time_us := ((events.getLast?).map (fun e => e.timestamp_us)).getD 0
      let input_path := s2.output_dir ++ "/input_" ++ segment_id ++ ".msgpack"
      if env.serialize_ok = false then
        (s2, { noOutputs K with files_deleted := deleted }, .error ("to_vec failed"))
      else if env.write_ok = false then
        (s2, { noOutputs K with files_deleted := deleted }, .error ("write failed"))
      else
        let out1 : EngineOutputs K :=
          { uploads := [], statuses := [],
            files_written := [(input_path, events)], files_deleted := deleted }
        if env.stop_ok = false then (s2, out1, .error ("stop_recording failed"))
        else
          let chunk : CompletedChunk K :=
            { chunk_id := segment_id, session_id := main_session_id,
              video_path := video_path, events := events,
              start_time_us := start_time_us, end_time_us := end_time_us }
          let sent :=
            if env.uploader_configured then
              if env.send_ok then
                ([UploadMessage.segment { chunk := chunk, input_path := input_path }],
                  [EngineStatus.uploading segment_id])
              else ([], [])
            else ([], [])
          let out2 := { out1 with uploads := sent.1, statuses := sent.2 }
          let s3 := { s2 with current_session := none, recording_start_ns := none,
                              segment_index := s2.segment_index + 1 }
          let new_segment_id := current_segment_id K s3
          match env.start_result new_segment_id with
          | .error e =>
            let s4 := { s3 with main_session_id := none, segment_index := 0 }
            (s4, { out2 with statuses := out2.statuses ++
                [EngineStatus.error ("Segment rotation failed: " ++ e)] }, .error e)
          | .ok session =>
            let s4 := { s3 with recording_start_ns := some session.start_time_ns,
                                current_session := some session,
                                capture_enabled := was_capturing }
            (s4, { out2 with statuses := out2.statuses ++ [EngineStatus.capturing 0] },
              .ok ())

/-- C3: if starting the next segment fails during rotation, the session
is terminated — `current_session` and `main_session_id` become `none`,
`segment_index` resets to 0, the gate stays closed (`capture_enabled`
is `false` regardless of its pre-call value), `recording_start_ns` is
cleared, an `Error` status is broadcast, the call returns the error —
and the consolidated outgoing segment was already enqueued (when the
uploader is configured and the channel send succeeds). -/
theorem rotate_segment_start_failure (K : Type) (env : RotateEnv K)
    (s : EngineState K) (sess : RecordingSession) (msid e : String)
    (hsess : s.current_session = some sess)
    (hmsid : s.main_session_id = some msid)
    (hser : env.serialize_ok = true) (hwr : env.write_ok = true)
    (hstop : env.stop_ok = true)
    (hstart : ∀ id, env.start_result id = .error e) :
    (rotate_segment K env s).1.current_session = none ∧
    (rotate_segment K env s).1.main_session_id = none ∧
    (rotate_segment K env s).1.segment_index = 0 ∧
    (rotate_segment K env s).1.capture_enabled = false ∧
    (rotate_segment K env s).1.recording_start_ns = none ∧
    EngineStatus.error ("Segment rotation failed: " ++ e) ∈
      (rotate_segment K env s).2.1.statuses ∧
    (rotate_segment K env s).2.2 = Except.error e ∧
    (env.uploader_configured = true → env.send_ok = true →
      (rotate_segment K env s).2.1.uploads =
        [UploadMessage.segment
          { chunk :=
              { chunk_id := current_segment_id K s, session_id := msid,
                video_path := some sess.output_path,
                events := (collect_segment_events K env.dir s.event_buffer
                  (current_segment_id K s)).1,
                start_time_us := (((collect_segment_events K env.dir s.event_buffer
                  (current_segment_id K s)).1.head?.map
                    (fun ev => ev.timestamp_us)).getD 0),
                end_time_us := (((collect_segment_events K env.dir s.event_buffer
                  (current_segment_id K s)).1.getLast?.map
                    (fun ev => ev.timestamp_us)).getD 0) },
            input_path := s.output_dir ++ "/input_" ++ current_segment_id K s ++
              ".msgpack" }]) := by
  have hid : current_segment_id K { s with capture_enabled := false } =
      current_segment_id K s := by
    simp [current_segment_id]
  refine ?_
  simp only [rotate_segment, hsess, hmsid, hser, hwr, hstop, hstart, Option.isNone_some,
    Bool.false_eq_true, if_false, Option.map_some]
  constructor
  · rfl
  constructor
  · rfl
  constructor
  · rfl
  constructor
  · rfl
  constructor
  · rfl
  constructor
  · by_cases huc : env.uploader_configured = true
    · by_cases hsnd : env.send_ok = true
      · simp [huc, hsnd]
      · simp [huc, hsnd]
    · simp [huc]
  constructor
  · rfl
  · intro huc hsnd
    simp [huc, hsnd, hid, current_segment_id, hmsid]

deriving instance DecidableEq for Except

/-- Rotation environment whose `start_recording` always fails. -/
def rotateFailEnv : RotateEnv Nat :=
  { dir := [], serialize_ok := true, write_ok := true, stop_ok := true,
    uploader_configured := true, send_ok := true,
    start_result := fun _ => .error ("obs start failed") }

/-- Concrete instantiation of `rotate_segment_start_failure`. -/
theorem rotate_segment_start_failure_witness :
    (rotate_segment Nat rotateFailEnv demoState).1.current_session = none ∧
    (rotate_segment Nat rotateFailEnv demoState).1.main_session_id = none ∧
    (rotate_segment Nat rotateFailEnv demoState).1.segment_index = 0 ∧
    (rotate_segment Nat rotateFailEnv demoState).1.capture_enabled = false ∧
    (rotate_segment Nat rotateFailEnv demoState).2.1.uploads.length = 1 := by
  have h := rotate_segment_start_failure Nat rotateFailEnv demoState demoSession
    ("sess") ("obs start failed") rfl rfl rfl rfl rfl (fun _ => rfl)
  refine ⟨h.1, h.2.1, h.2.2.1, h.2.2.2.1, ?_⟩
  rw [h.2.2.2.2.2.2.2 rfl rfl]
  rfl

/-- Directory holding one spill file for segment `sess_seg0000` whose
MessagePack contents fail to deserialize. -/
def c4Dir : List (DirEntry Nat) :=
  [⟨("input_sess_seg0000_partial_1.msgpack"), ReadResult.parseErr⟩]

/-- Rotation environment for the C4 counterexample: one unreadable spill
file, everything else succeeds. -/
def c4Env : RotateEnv Nat :=
  { dir := c4Dir, serialize_ok := true, write_ok := true, stop_ok := true,
    uploader_configured := true, send_ok := true,
    start_result := fun _ => .ok demoSession }

/-- C4 counterexample: a spill file of the segment fails to deserialize,
yet rotation still enqueues the segment for upload, still deletes that
spill file, and returns `Ok` — contradicting the claim that such a
failure prevents enqueueing and leaves the spill files on disk. -/
theorem rotate_segment_spill_failure_counterexample :
    (rotate_segment Nat c4Env demoState).2.1.uploads.length = 1 ∧
    ("input_sess_seg0000_partial_1.msgpack") ∈
      (rotate_segment Nat c4Env demoState).2.1.files_deleted ∧
    (rotate_segment Nat c4Env demoState).2.2 = Except.ok () := by
  decide

/-- C4 as amended: only a failure to produce the final input file
(serialization or write error) aborts finalization — then nothing is
enqueued, no final file is written, and the call errors; a spill file
that fails to read or deserialize does not abort anything.  In every
case that reaches consolidation, all matched spill files (unreadable
ones included) are deleted. -/
theorem rotate_segment_finalize_failure (K : Type) (env : RotateEnv K)
    (s : EngineState K) (sess : RecordingSession) (msid : String)
    (hsess : s.current_session = some sess)
    (hmsid : s.main_session_id = some msid) :
    ((env.serialize_ok = false ∨ env.write_ok = false) →
      ((rotate_segment K env s).2.1.uploads = [] ∧
        (rotate_segment K env s).2.1.files_written = [] ∧
        ∃ msg, (rotate_segment K env s).2.2 = Except.error msg)) ∧
    (rotate_segment K env s).2.1.files_deleted =
      (collect_spill_files K env.dir (current_segment_id K s)).map
        (fun f => f.name) := by
  have hid : current_segment_id K { s with capture_enabled := false } =
      current_segment_id K s := by
    simp [current_segment_id]
  constructor
  · rintro (hf | hf)
    · refine ⟨?_, ?_, ⟨("to_vec failed"), ?_⟩⟩ <;>
        simp [rotate_segment, hsess, hmsid, hf, noOutputs]
    · cases hser : env.serialize_ok
      · refine ⟨?_, ?_, ⟨("to_vec failed"), ?_⟩⟩ <;>
          simp [rotate_segment, hsess, hmsid, hser, noOutputs]
      · refine ⟨?_, ?_, ⟨("write failed"), ?_⟩⟩ <;>
          simp [rotate_segment, hsess, hmsid, hser, hf, noOutputs]
  · have hseg : current_segment_id K s = msid ++ "_seg" ++ pad4 s.segment_index := by
      simp [current_segment_id, hmsid]
    simp only [rotate_segment, hsess, hmsid, Option.isNone_some,
      Bool.false_eq_true, if_false, hseg]
    repeat' split <;> try rfl

/-- Rotation environment for the witness of the amended C4: the final
input file cannot be written. -/
def c4FailEnv : RotateEnv Nat :=
  { dir := c4Dir, serialize_ok := true, write_ok := false, stop_ok := true,
    uploader_configured := true, send_ok := true,
    start_result := fun _ => .ok demoSession }

/-- Concrete instantiation of `rotate_segment_finalize_failure`. -/
theorem rotate_segment_finalize_failure_witness :
    ((rotate_segment Nat c4FailEnv demoState).2.1.uploads = [] ∧
      (rotate_segment Nat c4FailEnv demoState).2.1.files_written = [] ∧
      ∃ msg, (rotate_segment Nat c4FailEnv demoState).2.2 = Except.error msg) ∧
    (rotate_segment Nat c4FailEnv demoState).2.1.files_deleted =
      (collect_spill_files Nat c4FailEnv.dir (current_segment_id Nat demoState)).map
        (fun f => f.name) := by
  have h := rotate_segment_finalize_failure Nat c4FailEnv demoState demoSession
    ("sess") rfl rfl
  exact ⟨h.1 (Or.inr rfl), h.2⟩

/-- From `src/capture/recovery.rs` lines 62-69: `set_original_display`. -/
def set_original_display (display_id : Nat) (uuid : String)
    (m : DisplayMonitorState) : DisplayMonitorState :=
  { m with original_display_id := some display_id,
           original_display_uuid := some uuid }

/-- From `src/capture/recovery.rs` lines 72-75: `clear_original_display`. -/
def clear_original_display (m : DisplayMonitorState) : DisplayMonitorState :=
  { m with original_display_id := none, original_display_uuid := none }

/-- Environment for one `start_recording` call: the results of
`capture_ctx.is_capture_setup()` / `setup_capture` (engine.rs 700-702),
the fresh UUID from `uuid::Uuid::new_v4()` (line 705), delivery of the
`StartSession` message (line 708, result ignored by the source),
`get_display_uuid` (line 713), and `capture_ctx.start_recording(id)`
(line 722). -/
structure StartEnv where
  capture_setup : Bool
  setup_ok : Bool
  new_uuid : String
  send_ok : Bool
  display_uuid : Nat → Option String
  start_result : String → Except String RecordingSession

/-- From `src/sync/engine.rs` lines 691-746: `start_recording`. -/
def start_recording (K : Type) (env : StartEnv) (s : EngineState K) :
    EngineState K × EngineOutputs K × Except String Unit :=
  if s.current_session.isSome then (s, noOutputs K, .ok ())
  else if env.capture_setup = false ∧ env.setup_ok = false then
    (s, noOutputs K, .error ("setup_capture failed"))
  else
    let main_session_id := env.new_uuid
    let s1 := { s with main_session_id := some main_session_id,
                       segment_index := 0 }
    let uploads :=
      if env.send_ok then [UploadMessage.startSession main_session_id] else []
    let s2 :=
      match s1.display_monitor.last_display_ids.head? with
      | some display_id =>
        match env.display_uuid display_id with
        | some uuid =>
          { s1 with display_monitor :=
              set_original_display display_id uuid s1.display_monitor }
        | none => s1
      | none => s1
    let segment_id := current_segment_id K s2
    match env.start_result segment_id with
    | .error e =>
      (s2, { noOutputs K with uploads := uploads }, .error e)
    | .ok session =>
      let s3 := { s2 with recording_start_ns := some session.start_time_ns,
                          current_session := some session,
                          event_buffer := [] }
      (s3, { noOutputs K with uploads := uploads,
                              statuses := [EngineStatus.capturing 0] }, .ok ())

/-- Environment for one `stop_recording` call (engine.rs 749-830):
the directory listing for consolidation, the outcomes of
`rmp_serde::to_vec` / `tokio::fs::write` (lines 770-771),
`capture_ctx.stop_recording()` (lines 777, 810), `uploader.is_configured()`
(line 786) and the `upload_tx.send` (line 802). -/
structure StopEnv (K : Type) where
  dir : List (DirEntry K)
  serialize_ok : Bool
  write_ok : Bool
  stop_result : Except String (Option RecordingSession)
  uploader_configured : Bool
  send_ok : Bool

/-- The session-clearing tail of `stop_recording` (engine.rs 819-825):
clear session ids, reset the segment index, clear the original display. -/
def clear_session_state (K : Type) (s : EngineState K) : EngineState K :=
  { s with current_session := none, recording_start_ns := none,
           main_session_id := none, segment_index := 0,
           display_monitor := clear_original_display s.display_monitor }

/-- From `src/sync/engine.rs` lines 749-830: `stop_recording`. -/
def stop_recording (K : Type) (env : StopEnv K) (s : EngineState K) :
    EngineState K × EngineOutputs K × Except String Unit :=
  if s.current_session.isNone then (s, noOutputs K, .ok ())
  else
    let video_path := s.current_session.map (fun ses => ses.output_path)
    let segment_id := current_segment_id K s
    let (events, deleted) := collect_segment_events K env.dir s.event_buffer segment_id
    let s1 := { s with event_buffer := [] }
    if events.isEmpty = false ∨ video_path.isSome then
      let start_time_us := (events.head?.map (fun e => e.timestamp_us)).getD 0
      let end_time_us := ((events.getLast?).map (fun e => e.timestamp_us)).getD 0
      let input_path := s1.output_dir ++ "/input_" ++ segment_id ++ ".msgpack"
      if env.serialize_ok = false then
        (s1, { noOutputs K with files_deleted := deleted }, .error ("to_vec failed"))
      else if env.write_ok = false then
        (s1, { noOutputs K with files_deleted := deleted }, .error ("write failed"))
      else
        let out1 : EngineOutputs K :=
          { uploads := [], statuses := [],
            files_written := [(input_path, events)], files_deleted := deleted }
        match env.stop_result with
        | .error e => (s1, out1, .error e)
        | .ok _ =>
          let chunk : CompletedChunk K :=
            { chunk_id := segment_id, session_id := s1.main_session_id.getD (""),
              video_path := video_path, events := events,
              start_time_us := start_time_us, end_time_us := end_time_us }
          let sent :=
            if env.uploader_configured then
              if env.send_ok then
                ([UploadMessage.segment { chunk := chunk, input_path := input_path }],
                  [EngineStatus.uploading segment_id])
              else ([], [])
            else ([], [])
          (clear_session_state K s1,
            { out1 with uploads := sent.1,
                        statuses := sent.2 ++ [EngineStatus.idle] }, .ok ())
    else
      match env.stop_result with
      | .error e =>
        (s1, { noOutputs K with files_deleted := deleted }, .error e)
      | .ok _ =>
        (clear_session_state K s1,
          { noOutputs K with files_deleted := deleted,
                             statuses := [EngineStatus.idle] }, .ok ())

/-- C9: outside their preconditions both session commands are
state-preserving no-ops that return `Ok` with no observable output:
`start_recording` while a session is active, and `stop_recording` with
no active session. -/
theorem session_commands_noop (K : Type) (env1 : StartEnv)
    (env2 : StopEnv K) (s1 s2 : EngineState K)
    (h1 : s1.current_session.isSome = true)
    (h2 : s2.current_session = none) :
    start_recording K env1 s1 = (s1, noOutputs K, .ok ()) ∧
    stop_recording K env2 s2 = (s2, noOutputs K, .ok ()) := by
  constructor
  · simp [start_recording, h1]
  · simp [stop_recording, h2]

/-- A demonstration `StartEnv`. -/
def demoStartEnv : StartEnv :=
  { capture_setup := true, setup_ok := true, new_uuid := "uuid-1",
    send_ok := true, display_uuid := fun _ => some ("dpy-uuid"),
    start_result := fun _ => .ok demoSession }

/-- A demonstration `StopEnv`. -/
def demoStopEnv : StopEnv Nat :=
  { dir := [], serialize_ok := true, write_ok := true,
    stop_result := .ok none, uploader_configured := true, send_ok := true }

/-- A demonstration idle engine state (no session). -/
def demoIdleState : EngineState Nat :=
  { capture_enabled := false, last_frontmost_app := none,
    current_session := none, recording_start_ns := none,
    output_dir := "out", display_monitor := demoMonitor,
    main_session_id := none, segment_index := 0, event_buffer := [] }

/-- Concrete instantiation of `session_commands_noop`: `demoState` has an
active session, `demoIdleState` has none. -/
theorem session_commands_noop_witness :
    start_recording Nat demoStartEnv demoState = (demoState, noOutputs Nat, .ok ()) ∧
    stop_recording Nat demoStopEnv demoIdleState = (demoIdleState, noOutputs Nat, .ok ()) :=
  session_commands_noop Nat demoStartEnv demoStopEnv demoState demoIdleState rfl rfl

/-- Platform display queries used by `check_for_changes`:
`get_display_uuid` (recovery.rs 199-263) and `get_display_name`
(recovery.rs 167-195) both ultimately query CoreGraphics, so they are
carried as environment functions. -/
structure DisplayEnv where
  display_uuid : Nat → Option String
  display_name : Nat → String

/-- From `src/capture/recovery.rs` lines 91-150: `check_for_changes`.
`current_ids` is the `Self::get_display_ids()` platform reading.  Returns
the emitted event (if any) and the new monitor state. -/
def check_for_changes (env : DisplayEnv) (current_ids : List Nat)
    (s : DisplayMonitorState) :
    Option DisplayChangeEvent × DisplayMonitorState :=
  if current_ids = s.last_display_ids then (none, s)
  else
    let old_ids := s.last_display_ids
    let s1 := { s with last_display_ids := current_ids }
    if current_ids.isEmpty then
      (some DisplayChangeEvent.allDisconnected,
        { s1 with displays_were_disconnected := true })
    else
      let s2 := { s1 with displays_were_disconnected := false }
      let from_id := old_ids.head?.getD 0
      let to_id := current_ids.head?.getD 0
      let switched :=
        (some (DisplayChangeEvent.switchedToNew from_id
          (env.display_name from_id) to_id (env.display_name to_id)
          ((env.display_uuid to_id).getD (""))), s2)
      match s2.original_display_id with
      | some orig_id =>
        if orig_id ∈ current_ids ∧ orig_id ∉ old_ids then
          (some (DisplayChangeEvent.originalReturned orig_id
            ((env.display_uuid orig_id).getD ("")) (env.display_name orig_id)),
            s2)
        else switched
      | none => switched

/-- The condition under which `check_for_changes` (with a nonempty
`current_ids` differing from the last reading) emits `OriginalReturned`:
an original display id is recorded, it is among the current ids, and it
was not among the last-seen ids (recovery.rs 117-118). -/
def orig_return_cond (s : DisplayMonitorState) (current_ids : List Nat) : Prop :=
  match s.original_display_id with
  | some o => o ∈ current_ids ∧ o ∉ s.last_display_ids
  | none => False

instance (s : DisplayMonitorState) (current_ids : List Nat) :
    Decidable (orig_return_cond s current_ids) := by
  unfold orig_return_cond
  cases s.original_display_id
  · exact isFalse id
  · exact inferInstanceAs (Decidable (_ ∧ _))

/-- C5: the display-change classifier's decision table.  On a check whose
current ids differ from the last-seen ids: empty current ids emit
`AllDisconnected` (and set the disconnected flag); otherwise the state is
updated to the current ids with the flag cleared, `OriginalReturned` is
emitted exactly under `orig_return_cond`, and in every other case
`SwitchedToNew` is emitted with `from` the first last-seen id and `to`
the first current id (defaulting to 0 on an empty list, as the source's
`unwrap_or(0)` does). -/
theorem check_for_changes_spec (env : DisplayEnv) (current_ids : List Nat)
    (s : DisplayMonitorState) (hne : current_ids ≠ s.last_display_ids) :
    (current_ids = [] →
      (check_for_changes env current_ids s).1 =
        some DisplayChangeEvent.allDisconnected ∧
      (check_for_changes env current_ids s).2 =
        { s with last_display_ids := current_ids,
                 displays_were_disconnected := true }) ∧
    (current_ids ≠ [] →
      (check_for_changes env current_ids s).2 =
        { s with last_display_ids := current_ids,
                 displays_were_disconnected := false } ∧
      (orig_return_cond s current_ids →
        ∃ o, s.original_display_id = some o ∧
          (check_for_changes env current_ids s).1 =
            some (DisplayChangeEvent.originalReturned o
              ((env.display_uuid o).getD ("")) (env.display_name o))) ∧
      (¬ orig_return_cond s current_ids →
        (check_for_changes env current_ids s).1 =
          some (DisplayChangeEvent.switchedToNew
            (s.last_display_ids.head?.getD 0)
            (env.display_name (s.last_display_ids.head?.getD 0))
            (current_ids.head?.getD 0)
            (env.display_name (current_ids.head?.getD 0))
            ((env.display_uuid (current_ids.head?.getD 0)).getD (""))))) := by
  constructor
  · intro hcur
    have hlast : ¬ s.last_display_ids = [] := by
      intro h
      exact hne (by rw [hcur, h])
    constructor <;> simp [check_for_changes, hne, hcur, hlast]
  · intro hcur
    have hemp : current_ids.isEmpty = false := by
      cases current_ids
      · exact absurd rfl hcur
      · rfl
    rcases horig : s.original_display_id with _ | o
    · refine ⟨?_, ?_, ?_⟩
      · simp [check_for_changes, hne, hemp, horig]
      · intro hc
        exact absurd hc (by simp [orig_return_cond, horig])
      · intro _
        simp [check_for_changes, hne, hemp, horig]
    · by_cases hc : o ∈ current_ids ∧ o ∉ s.last_display_ids
      · refine ⟨?_, ?_, ?_⟩
        · simp [check_for_changes, hne, hemp, horig, hc]
        · intro _
          exact ⟨o, rfl, by simp [check_for_changes, hne, hemp, horig, hc]⟩
        · intro hnc
          exact absurd (by simp [orig_return_cond, horig, hc] : orig_return_cond s current_ids) hnc
      · refine ⟨?_, ?_, ?_⟩
        · simp [check_for_changes, hne, hemp, horig, hc]
        · intro hcnd
          have : o ∈ current_ids ∧ o ∉ s.last_display_ids := by
            have h2 := hcnd
            unfold orig_return_cond at h2
            rw [horig] at h2
            exact h2
          exact absurd this hc
        · intro _
          simp [check_for_changes, hne, hemp, horig, hc]

/-- A monitor state for the C5 instantiation: original display 2 recorded,
last reading saw only display 1. -/
def c5Monitor : DisplayMonitorState :=
  { last_display_ids := [1], displays_were_disconnected := false,
    original_display_id := some 2, original_display_uuid := some ("uuid-2") }

/-- A display environment for the C5 instantiation. -/
def c5Env : DisplayEnv :=
  { display_uuid := fun _ => some ("uuid-2"), display_name := fun _ => "Display" }

/-- Concrete instantiation of `check_for_changes_spec`: display 2 (the
original) reappears next to display 1, so `OriginalReturned` is emitted. -/
theorem check_for_changes_spec_witness :
    (check_for_changes c5Env [2, 1] c5Monitor).1 =
      some (DisplayChangeEvent.originalReturned 2
        ((c5Env.display_uuid 2).getD ("")) (c5Env.display_name 2)) := by
  have h := check_for_changes_spec c5Env [2, 1] c5Monitor (by decide)
  rcases (h.2 (by decide)).2.1 (by decide) with ⟨o, ho, hev⟩
  have ho2 : o = 2 := by
    have : some o = some 2 := by rw [← ho]; rfl
    exact Option.some.inj this
  rw [hev, ho2]

/-- From `src/sync/engine.rs` line 189: `BASE_RETRY_BACKOFF`, in seconds. -/
def BASE_RETRY_BACKOFF : Nat := 30

/-- From `src/sync/engine.rs` line 190: `MAX_RETRY_BACKOFF`, in seconds. -/
def MAX_RETRY_BACKOFF : Nat := 2 * 60 * 60

/-- From `src/sync/engine.rs` line 191: `MAX_RETRY_WINDOW`, in seconds. -/
def MAX_RETRY_WINDOW : Nat := 2 * 60 * 60

/-- From `src/sync/engine.rs` lines 207-215: `backoff_for_attempt`.
`1u32.checked_shl(attempt.saturating_sub(1))` is `None` exactly when the
shift is ≥ 32, in which case the source substitutes `u32::MAX = 2^32 − 1`;
the `Duration` multiplication by a `u32` cannot overflow at these sizes. -/
def backoff_for_attempt (attempt : Nat) : Nat :=
  let exp := if 32 ≤ attempt - 1 then 2 ^ 32 - 1 else 2 ^ (attempt - 1)
  min (BASE_RETRY_BACKOFF * exp) MAX_RETRY_BACKOFF

/-- From `src/sync/engine.rs` lines 198-205: `jitter_multiplier`.
The `DefaultHasher` digest of `(chunk_id, attempts)` is std-library code
outside this repository; it is deterministic (fixed SipHash keys), so the
digest enters here as the `hash` argument.  The f64 computation
`0.8 + ((hash % 401) as f64) / 1000.0` is embedded over `ℚ`. -/
def jitter_multiplier (hash : Nat) : ℚ :=
  8 / 10 + ((hash % 401 : Nat) : ℚ) / 1000

/-- From `src/sync/engine.rs` lines 286-290 (first failure) and 354-358
(retry failure): the delay scheduled after failure number `attempt` —
`backoff_for_attempt(attempt)` times the jitter, then capped again at
`MAX_RETRY_BACKOFF` (`if delay > MAX_RETRY_BACKOFF { delay = MAX }`). -/
def delay_after_failure (hash attempt : Nat) : ℚ :=
  let delay := (backoff_for_attempt attempt : ℚ) * jitter_multiplier hash
  if (MAX_RETRY_BACKOFF : ℚ) < delay then (MAX_RETRY_BACKOFF : ℚ) else delay

/-- The delay formula as the specification states it:
`min(30 s · 2^(n−1), 2 h) · jitter`, with no cap after the
multiplication. -/
def claimed_delay (hash attempt : Nat) : ℚ :=
  ((min (30 * 2 ^ (attempt - 1)) 7200 : Nat) : ℚ) * jitter_multiplier hash

/-- C6 counterexample: at failure number 9 with a jitter bucket of 400
(jitter 1.2), the code schedules `2 h` (the product is capped), while the
claimed formula `min(30·2^(n−1), 2 h) · jitter` gives `8640 s > 2 h`. -/
theorem backoff_cap_counterexample :
    delay_after_failure 400 9 ≠ claimed_delay 400 9 ∧
    delay_after_failure 400 9 = 7200 ∧ claimed_delay 400 9 = 8640 := by
  norm_num [delay_after_failure, claimed_delay, backoff_for_attempt,
    jitter_multiplier, BASE_RETRY_BACKOFF, MAX_RETRY_BACKOFF]

theorem jitter_multiplier_bounds (hash : Nat) :
    4 / 5 ≤ jitter_multiplier hash ∧ jitter_multiplier hash ≤ 6 / 5 := by
  unfold jitter_multiplier
  have h : (hash % 401) ≤ 400 := Nat.le_of_lt_succ (Nat.mod_lt _ (by norm_num))
  have h0 : (0 : ℚ) ≤ ((hash % 401 : Nat) : ℚ) := Nat.cast_nonneg _
  have h4 : ((hash % 401 : Nat) : ℚ) ≤ 400 := by exact_mod_cast h
  constructor
  · linarith
  · linarith

/-- C6 as amended: for every failure number `n` with `1 ≤ n ≤ 8` — in
particular every failure whose scheduled retry can still execute inside
the 2 h give-up window — the scheduled delay equals the spec's
`min(30·2^(n−1), 2 h) · jitter`, and the jitter lies in `[0.8, 1.2]`
(and, being a function of the `(chunk_id, n)` digest, is deterministic).
Only for `n ≥ 9` does the code's extra cap at 2 h bite. -/
theorem backoff_delay_amended (hash attempt : Nat)
    (h1 : 1 ≤ attempt) (h8 : attempt ≤ 8) :
    delay_after_failure hash attempt = claimed_delay hash attempt ∧
    4 / 5 ≤ jitter_multiplier hash ∧ jitter_multiplier hash ≤ 6 / 5 := by
  have hj := jitter_multiplier_bounds hash
  have h32 : ¬ 32 ≤ attempt - 1 := by omega
  have hb : backoff_for_attempt attempt = min (30 * 2 ^ (attempt - 1)) 7200 := by
    simp [backoff_for_attempt, BASE_RETRY_BACKOFF, MAX_RETRY_BACKOFF, h32]
  have hble : backoff_for_attempt attempt ≤ 3840 := by
    rw [hb]
    have hexp : 2 ^ (attempt - 1) ≤ 128 := by
      have : attempt - 1 ≤ 7 := by omega
      calc 2 ^ (attempt - 1) ≤ 2 ^ 7 := Nat.pow_le_pow_right (by norm_num) this
        _ = 128 := by norm_num
    have : 30 * 2 ^ (attempt - 1) ≤ 3840 := by omega
    omega
  have hbq : ((backoff_for_attempt attempt : Nat) : ℚ) ≤ 3840 := by
    exact_mod_cast hble
  have hb0 : (0 : ℚ) ≤ ((backoff_for_attempt attempt : Nat) : ℚ) :=
    Nat.cast_nonneg _
  have hprod : ((backoff_for_attempt attempt : Nat) : ℚ) *
      jitter_multiplier hash ≤ 7200 := by
    calc ((backoff_for_attempt attempt : Nat) : ℚ) * jitter_multiplier hash ≤
        3840 * (6 / 5) := by
          apply mul_le_mul hbq hj.2 (le_trans (by norm_num) hj.1) (by norm_num)
      _ ≤ 7200 := by norm_num
  refine ⟨?_, hj⟩
  unfold delay_after_failure claimed_delay
  have hcap : ¬ ((MAX_RETRY_BACKOFF : Nat) : ℚ) <
      (backoff_for_attempt attempt : ℚ) * jitter_multiplier hash := by
    simp only [MAX_RETRY_BACKOFF]
    push_cast
    linarith
  rw [if_neg hcap, hb]

/-- Concrete instantiation of `backoff_delay_amended` at failure 3. -/
theorem backoff_delay_amended_witness :
    delay_after_failure 0 3 = claimed_delay 0 3 ∧
    4 / 5 ≤ jitter_multiplier 0 ∧ jitter_multiplier 0 ≤ 6 / 5 :=
  backoff_delay_amended 0 3 (by norm_num) (by norm_num)

theorem delay_after_failure_nonneg (hash attempt : Nat) :
    0 ≤ delay_after_failure hash attempt := by
  simp only [delay_after_failure]
  split
  · norm_num [MAX_RETRY_BACKOFF]
  · have hj := (jitter_multiplier_bounds hash).1
    have hb0 : (0 : ℚ) ≤ ((backoff_for_attempt attempt : Nat) : ℚ) :=
      Nat.cast_nonneg _
    apply mul_nonneg hb0 (le_trans (by norm_num) hj)

theorem delay_after_failure_le_max (hash attempt : Nat) :
    delay_after_failure hash attempt ≤ 7200 := by
  simp only [delay_after_failure]
  split
  · norm_num [MAX_RETRY_BACKOFF]
  · rename_i hcap
    simp only [MAX_RETRY_BACKOFF] at hcap
    push_cast at hcap
    linarith [not_lt.mp (by exact_mod_cast hcap : ¬ (7200 : ℚ) <
      (backoff_for_attempt attempt : ℚ) * jitter_multiplier hash)]

theorem delay_after_failure_lb (hash attempt : Nat) :
    4 / 5 * ((backoff_for_attempt attempt : Nat) : ℚ) ≤
      delay_after_failure hash attempt := by
  have hj := jitter_multiplier_bounds hash
  have hb0 : (0 : ℚ) ≤ ((backoff_for_attempt attempt : Nat) : ℚ) :=
    Nat.cast_nonneg _
  have hbmax : ((backoff_for_attempt attempt : Nat) : ℚ) ≤ 7200 := by
    have : backoff_for_attempt attempt ≤ 7200 := by
      unfold backoff_for_attempt
      exact Nat.min_le_right _ _
    exact_mod_cast this
  simp only [delay_after_failure]
  split
  · simp only [MAX_RETRY_BACKOFF]
    push_cast
    linarith
  · have := mul_le_mul_of_nonneg_left hj.1 hb0
    linarith [this]

/-- The cumulative scheduled delay after the first `k` failures, each
with its own hasher digest. -/
def sum_delays (hash : Nat → Nat) : Nat → ℚ
  | 0 => 0
  | k + 1 => sum_delays hash k + delay_after_failure (hash (k + 1)) (k + 1)

theorem sum_delays_le_succ (hash : Nat → Nat) (k : Nat) :
    sum_delays hash k ≤ sum_delays hash (k + 1) := by
  have := delay_after_failure_nonneg (hash (k + 1)) (k + 1)
  simp only [sum_delays]
  linarith

theorem sum_delays_mono (hash : Nat → Nat) {a b : Nat} (h : a ≤ b) :
    sum_delays hash a ≤ sum_delays hash b := by
  induction h with
  | refl => exact le_refl _
  | step _ ih => exact le_trans ih (sum_delays_le_succ hash _)

theorem sum_delays_nine (hash : Nat → Nat) : 11880 ≤ sum_delays hash 9 := by
  have l1 := delay_after_failure_lb (hash 1) 1
  have l2 := delay_after_failure_lb (hash 2) 2
  have l3 := delay_after_failure_lb (hash 3) 3
  have l4 := delay_after_failure_lb (hash 4) 4
  have l5 := delay_after_failure_lb (hash 5) 5
  have l6 := delay_after_failure_lb (hash 6) 6
  have l7 := delay_after_failure_lb (hash 7) 7
  have l8 := delay_after_failure_lb (hash 8) 8
  have l9 := delay_after_failure_lb (hash 9) 9
  have b1 : backoff_for_attempt 1 = 30 := by decide
  have b2 : backoff_for_attempt 2 = 60 := by decide
  have b3 : backoff_for_attempt 3 = 120 := by decide
  have b4 : backoff_for_attempt 4 = 240 := by decide
  have b5 : backoff_for_attempt 5 = 480 := by decide
  have b6 : backoff_for_attempt 6 = 960 := by decide
  have b7 : backoff_for_attempt 7 = 1920 := by decide
  have b8 : backoff_for_attempt 8 = 3840 := by decide
  have b9 : backoff_for_attempt 9 = 7200 := by decide
  rw [b1] at l1
  rw [b2] at l2
  rw [b3] at l3
  rw [b4] at l4
  rw [b5] at l5
  rw [b6] at l6
  rw [b7] at l7
  rw [b8] at l8
  rw [b9] at l9
  norm_num at l1 l2 l3 l4 l5 l6 l7 l8 l9
  simp only [sum_delays]
  linarith

/-- One run of the upload worker's retry loop for a single segment
(`spawn_upload_task`, engine.rs 243-372), abstracted to its timing facts:
`failAt n` is the instant failure number `n` is recorded (`Instant::now()`
at lines 284/360), `popAt k` the instant retry `k` is popped from the heap
(line 315).  The fields are exactly what the source guarantees: the first
failure starts the window (`first_failed_at = now`, line 294); a retry is
popped no earlier than its `next_attempt_at = failure instant + scheduled
delay` (lines 295/360, 311, 316); and the next failure happens after the
retry that produced it. -/
structure RetryRun where
  hash : Nat → Nat
  firstFailedAt : ℚ
  failAt : Nat → ℚ
  popAt : Nat → ℚ
  first_fail : failAt 1 = firstFailedAt
  pop_after_sched : ∀ k, 1 ≤ k →
    failAt k + delay_after_failure (hash k) k ≤ popAt k
  fail_after_pop : ∀ k, 1 ≤ k → popAt k ≤ failAt (k + 1)

/-- The give-up check (engine.rs 333-339): retry `k` executes only when
`now − first_failed_at < MAX_RETRY_WINDOW` at pop time; otherwise the
segment is dropped. -/
def retry_executes (r : RetryRun) (k : Nat) : Prop :=
  r.popAt k - r.firstFailedAt < ((MAX_RETRY_WINDOW : Nat) : ℚ)

theorem pop_lower (r : RetryRun) : ∀ k, 1 ≤ k →
    r.firstFailedAt + sum_delays r.hash k ≤ r.popAt k := by
  intro k
  induction k with
  | zero => intro h; exact absurd h (by norm_num)
  | succ n ih =>
    intro _
    rcases Nat.eq_zero_or_pos n with hn | hn
    · subst hn
      have h1 := r.pop_after_sched 1 (le_refl 1)
      have hf := r.first_fail
      simp only [sum_delays]
      rw [hf] at h1
      linarith
    · have hp := ih hn
      have h2 := r.pop_after_sched (n + 1) (by omega)
      have h3 := r.fail_after_pop n hn
      simp only [sum_delays]
      linarith

/-- C7: under the give-up rule and the backoff schedule, no retry beyond
the 8th can ever execute — if retry `k` passes the give-up check then
`k ≤ 8`. -/
theorem retry_bound (r : RetryRun) (k : Nat) (hk : 1 ≤ k)
    (hex : retry_executes r k) : k ≤ 8 := by
  by_contra hgt
  push_neg at hgt
  have h9 : 9 ≤ k := hgt
  have hlow := pop_lower r k hk
  have hmono : sum_delays r.hash 9 ≤ sum_delays r.hash k :=
    sum_delays_mono r.hash h9
  have hsum := sum_delays_nine r.hash
  unfold retry_executes at hex
  simp only [MAX_RETRY_WINDOW] at hex
  push_cast at hex
  linarith

/-- A concrete worker run: every digest 0 (jitter 0.8), failures spaced
10000 s apart, each retry popped exactly at its scheduled instant. -/
def witnessRun : RetryRun :=
  { hash := fun _ => 0, firstFailedAt := 0,
    failAt := fun n => ((10000 * (n - 1) : Nat) : ℚ),
    popAt := fun n => ((10000 * (n - 1) : Nat) : ℚ) + delay_after_failure 0 n,
    first_fail := by norm_num,
    pop_after_sched := fun k _ => le_refl _,
    fail_after_pop := by
      intro k hk
      have hd := delay_after_failure_le_max 0 k
      have harith : 10000 * (k - 1) + 10000 = 10000 * ((k + 1) - 1) := by omega
      have hc : ((10000 * (k - 1) : Nat) : ℚ) + 10000 =
          ((10000 * ((k + 1) - 1) : Nat) : ℚ) := by
        rw [← harith]
        push_cast
        ring
      show ((10000 * (k - 1) : Nat) : ℚ) + delay_after_failure 0 k ≤
          ((10000 * ((k + 1) - 1) : Nat) : ℚ)
      linarith }

/-- Concrete instantiation of `retry_bound`: retry 1 of `witnessRun`
passes the give-up check, and indeed `1 ≤ 8`. -/
theorem retry_bound_witness : retry_executes witnessRun 1 ∧ 1 ≤ 8 := by
  have hex : retry_executes witnessRun 1 := by
    unfold retry_executes witnessRun
    norm_num [delay_after_failure, backoff_for_attempt, jitter_multiplier,
      BASE_RETRY_BACKOFF, MAX_RETRY_BACKOFF, MAX_RETRY_WINDOW]
  exact ⟨hex, retry_bound witnessRun 1 (le_refl 1) hex⟩

/-- Modelled from the spec: the state the `PauseRecording` command acts
on.  The source snapshot declares the command (`src/sync/mod.rs` lines
14-15), the `Paused` status (line 35), the tray sender (`src/ui/tray.rs`
line 416) and the capture runtime's `pause_recording`
(`src/capture/context.rs` lines 717-735), but the `match cmd` in
`SyncEngine::run` (engine.rs lines 428-455) has no arm for it — the
handler itself is missing from the snapshot, so it is modelled from
§4.6 of the specification. -/
structure PauseState where
  session_active : Bool
  paused : Bool
  capture_enabled : Bool
deriving DecidableEq

/-- Modelled from the spec: handling of `EngineCommand::PauseRecording`
(§4.6 command table: precondition "session active, not paused"; effect
"gate closes; capture runtime signaled to pause"; the broadcast status
becomes `Paused`).  Returns the new state, the statuses broadcast, and
whether `capture_ctx.pause_recording()` was signaled. -/
def handle_pause_recording (s : PauseState) :
    PauseState × List EngineStatus × Bool :=
  if s.session_active = true ∧ s.paused = false then
    ({ s with capture_enabled := false, paused := true },
      [EngineStatus.paused], true)
  else (s, [], false)

/-- C8: on `PauseRecording` with a session active and not paused, the
capture gate closes (input buffering stops), the capture runtime is
signaled to pause the encoder, and the broadcast status becomes
`Paused`. -/
theorem pause_recording_spec (s : PauseState)
    (hact : s.session_active = true) (hp : s.paused = false) :
    (handle_pause_recording s).1.capture_enabled = false ∧
    (handle_pause_recording s).1.paused = true ∧
    (handle_pause_recording s).2.1 = [EngineStatus.paused] ∧
    (handle_pause_recording s).2.2 = true := by
  simp [handle_pause_recording, hact, hp]

/-- Concrete instantiation of `pause_recording_spec`. -/
theorem pause_recording_spec_witness :
    (handle_pause_recording ⟨true, false, true⟩).1.capture_enabled = false ∧
    (handle_pause_recording ⟨true, false, true⟩).1.paused = true ∧
    (handle_pause_recording ⟨true, false, true⟩).2.1 = [EngineStatus.paused] ∧
    (handle_pause_recording ⟨true, false, true⟩).2.2 = true :=
  pause_recording_spec ⟨true, false, true⟩ rfl rfl

end CrowdCast
